import Mathlib

/-!
Verification of the Nexus podcast-generation client.

This file shallowly embeds the parts of the source that the verified
properties speak about:

* `src/types.ts` — the data model (scripts, episodes, topics, app state);
* `src/utils/audioUtils.ts` — `chunkScript`, `createWavBlob`,
  `mergeAudioSegments` (byte buffers are modelled as `List Nat`, every
  entry a byte value; `Blob`/`ArrayBuffer` contents are their byte lists);
* `src/services/gemini.ts` — the retry loop of `generateAudio`
  (modelled as `generateAudioRun`, the remote call itself is an oracle
  `Nat → Except String String` giving each attempt's outcome);
* the `App` component — `handleGenerationFlow`, `handleStopGeneration`,
  `addToLibrary`, `handleAddTopic`.  React's `setState` is modelled as a
  function on an explicit `AppState` record; the `generationIdRef` ref
  cell together with the state forms a `Model`.  Remote services are
  oracles packaged in `GenEnv`.  Asynchronous resumptions are embedded
  as explicit state-transformer functions, one per `await`-continuation
  of the source, and `handleGenerationFlow` composes them in the
  schedule in which the source awaits them, emitting a trace of request
  / resolution / commit events (`Ev`).  Within one run no external
  actor touches the store, which embeds the "epoch stays current"
  scenario; the cancellation interleaving is built by composing the very
  same continuation functions around `handleStopGeneration`.
-/

deriving instance DecidableEq for Except

namespace Nexus

/-! ## Data model (src/types.ts) -/

/-- A single dialogue line (`ScriptLine` in `types.ts`). -/
structure ScriptLine where
  speaker : String
  text : String
deriving DecidableEq

/-- A generated script (`PodcastScript` in `types.ts`). -/
structure PodcastScript where
  title : String
  topic : String
  summary : String
  digest : String
  lines : List ScriptLine
deriving DecidableEq

/-- A persisted episode (`PodcastEpisode` in `types.ts`).  The
`createdAt : Date` wall-clock field is not modelled (no claim mentions
it); `audioSegments` holds the object URLs of the synthesized parts. -/
structure PodcastEpisode where
  id : String
  script : PodcastScript
  audioSegments : List String
  category : String
  customImage : Option String
deriving DecidableEq

/-- A selectable topic (`NewsTopic` in `types.ts`). -/
structure NewsTopic where
  id : String
  name : String
  description : Option String
  rssUrls : List String
  isCustom : Bool
  isLoading : Bool
  color : String
  customImage : Option String
deriving DecidableEq

/-- The `status` field of the app state. -/
inductive Status where
  | idle
  | scripting
  | synthesizing
  | complete
  | error
deriving DecidableEq

/-- The application state (`AppState` in `types.ts`), restricted to the
fields the generation pipeline and the topic registry read or write.
Purely presentational fields (`view`, `previousView`, `inputText`,
`sourceFile`, `upcomingEvents`, `isEventsLoading`) are omitted: no
claim and no modelled handler depends on them.  The source field
`isGeneratingAudio` is named `isAudioGenerating` here. -/
structure AppState where
  status : Status
  script : Option PodcastScript
  audioSegments : List String
  isAudioGenerating : Bool
  error : Option String
  notification : Option String
  currentEpisodeId : Option String
  activeCategory : String
  customCoverUrl : Option String
  library : List PodcastEpisode
  topics : List NewsTopic
deriving DecidableEq

/-- The mutable world of the `App` component: the `generationIdRef`
ref cell plus the React state. -/
structure Model where
  generationId : Nat
  state : AppState
deriving DecidableEq

/-- JavaScript truthiness of an optional string (`undefined` and the
empty string are falsy). -/
def truthy : Option String → Bool
  | none => false
  | some s => !s.isEmpty

/-- JavaScript `color || 'slate'` on an optional string. -/
def orDefault : Option String → String → String
  | some s, d => if s.isEmpty then d else s
  | none, d => d

/-! ## Script chunking (src/utils/audioUtils.ts, `chunkScript`) -/

/-- The slicing loop of `chunkScript`:
`for (let i = 0; i < lines.length; i += linesPerChunk)
   chunks.push(lines.slice(i, i + linesPerChunk))`.
For `k = 0` the source loop would not terminate; the claims only concern
positive chunk sizes, and the `k = 0` branch here (returning the whole
list as one chunk) is outside every verified statement. -/
def chunkLines {α : Type} (k : Nat) (xs : List α) : List (List α) :=
  if xs.isEmpty then []
  else if k = 0 then [xs]
  else xs.take k :: chunkLines k (xs.drop k)
termination_by xs.length
decreasing_by
  rename_i h hk
  simp only [List.length_drop]
  cases xs with
  | nil => simp at h
  | cons y ys => simp only [List.length_cons]; omega

/-- Function `chunkScript` from `audioUtils.ts`: each chunk spreads the parent
script and replaces `lines` by a slice. -/
def chunkScript (script : PodcastScript) (linesPerChunk : Nat := 8) : List PodcastScript :=
  (chunkLines linesPerChunk script.lines).map fun ls => { script with lines := ls }

/-! ## WAV codec (src/utils/audioUtils.ts, `createWavBlob` /
`mergeAudioSegments`) -/

/-- Little-endian bytes written by `DataView.setUint16` (the view
truncates to 16 bits; the two bytes below agree with that for every
`v`). -/
def u16le (v : Nat) : List Nat :=
  [v % 256, v / 256 % 256]

/-- Little-endian bytes written by `DataView.setUint32`. -/
def u32le (v : Nat) : List Nat :=
  [v % 256, v / 256 % 256, v / 65536 % 256, v / 16777216 % 256]

/-- Bytes written by the `writeString` helper (`charCodeAt` of each
character). -/
def asciiBytes (s : String) : List Nat :=
  s.toList.map fun c => c.toNat

/-- Function `createWavBlob`: the 44-byte RIFF/WAVE header followed by the raw
PCM payload.  The concatenation below lists the `DataView` writes in
offset order (0, 4, 8, 12, 16, 20, 22, 24, 28, 32, 34, 36, 40), which
are contiguous, so the byte list equals the buffer contents. -/
def createWavBlob (pcmData : List Nat) (sampleRate : Nat := 24000) : List Nat :=
  let numChannels := 1
  let bitsPerSample := 16
  let byteRate := sampleRate * numChannels * bitsPerSample / 8
  let blockAlign := numChannels * bitsPerSample / 8
  let dataSize := pcmData.length
  let fileSize := 36 + dataSize
  asciiBytes "RIFF" ++ u32le fileSize ++ asciiBytes "WAVE"
    ++ asciiBytes "fmt " ++ u32le 16 ++ u16le 1 ++ u16le numChannels
    ++ u32le sampleRate ++ u32le byteRate ++ u16le blockAlign ++ u16le bitsPerSample
    ++ asciiBytes "data" ++ u32le dataSize ++ pcmData

/-- Read back a little-endian 16-bit field at byte offset `off`
(missing bytes read as 0). -/
def readU16le (bytes : List Nat) (off : Nat) : Nat :=
  bytes.getD off 0 + 256 * bytes.getD (off + 1) 0

/-- Read back a little-endian 32-bit field at byte offset `off`. -/
def readU32le (bytes : List Nat) (off : Nat) : Nat :=
  bytes.getD off 0 + 256 * bytes.getD (off + 1) 0
    + 65536 * bytes.getD (off + 2) 0 + 16777216 * bytes.getD (off + 3) 0

/-- Function `mergeAudioSegments`, after the `fetch` of every segment URL has
produced its byte buffer (the function is modelled on the fetched
buffers, in input order): strip the assumed 44-byte header of every
buffer longer than 44 bytes (`byteLength <= 44` contributes an empty
payload), concatenate, and re-encode at 24000 Hz. -/
def mergeAudioSegments (buffers : List (List Nat)) : List Nat :=
  let headerSize := 44
  let pcmChunks := buffers.map fun buffer =>
    if buffer.length ≤ headerSize then [] else buffer.drop headerSize
  let mergedPcm := pcmChunks.flatten
  createWavBlob mergedPcm 24000

/-! ## Audio synthesis retry loop (src/services/gemini.ts,
`generateAudio`) -/

/-- Result of one call of `generateAudio`: the outcome, how many
attempts were made, and the backoff delays (in milliseconds) slept
between attempts. -/
structure AudioRun where
  result : Except String String
  attemptsMade : Nat
  delays : List Nat
deriving DecidableEq

/-- The constant `maxRetries = 3` of `generateAudio`. -/
def maxRetries : Nat := 3

/-- The retry loop
`for (let attempt = 0; attempt <= maxRetries; attempt++)` of
`generateAudio`.  `attemptOutcome i` is the outcome of the `i`-th remote
TTS call; on failure with more attempts left the loop sleeps
`1000 * 2 ^ attempt` ms; after the last failure it rethrows the last
error.  `remaining` counts the attempts still allowed (the `fuel = 0`
base case is unreachable from `generateAudioRun`). -/
def genAudioGo (attemptOutcome : Nat → Except String String) :
    Nat → Nat → AudioRun
  | _, 0 => ⟨.error "Failed to generate audio after retries", 0, []⟩
  | attempt, remaining + 1 =>
    match attemptOutcome attempt with
    | .ok url => ⟨.ok url, 1, []⟩
    | .error e =>
      if remaining = 0 then ⟨.error e, 1, []⟩
      else
        let rest := genAudioGo attemptOutcome (attempt + 1) remaining
        ⟨rest.result, rest.attemptsMade + 1, 1000 * 2 ^ attempt :: rest.delays⟩

/-- Function `generateAudio` as a whole: up to `maxRetries + 1 = 4` attempts
starting at attempt 0. -/
def generateAudioRun (attemptOutcome : Nat → Except String String) : AudioRun :=
  genAudioGo attemptOutcome 0 (maxRetries + 1)

/-! ## Generation session controller (`App` component)

The remote services called during one `handleGenerationFlow` run are an
oracle record: `scriptResult` is the outcome of `generateScript`,
`audioResult i` the outcome of `generateAudio(scriptChunks[i])` after
its internal retries, `imageResult` the outcome of
`generateCoverImage`, and `episodeId` the `crypto.randomUUID()` drawn
by `addToLibrary`. -/

/-- Oracle for the remote calls of one generation run. -/
structure GenEnv where
  scriptResult : Except String PodcastScript
  audioResult : Nat → Except String String
  imageResult : Except String String
  episodeId : String

/-- Observable events of a generation run, in the order they happen. -/
inductive Ev where
  | scriptRequested
  | scriptResolved (ok : Bool)
  | audioRequested (chunkIdx : Nat)
  | audioResolved (chunkIdx : Nat) (ok : Bool)
  | imageResolved
  | committed (episodeId : String)
deriving DecidableEq

/-- Whether an event is a library commit. -/
def isCommitEv : Ev → Bool
  | .committed _ => true
  | _ => false

/-- Whether an event is an audio-synthesis request. -/
def isAudioRequestEv : Ev → Bool
  | .audioRequested _ => true
  | _ => false

/-- Success of an `Except` as a `Bool`. -/
def exIsOk : Except String String → Bool
  | .ok _ => true
  | .error _ => false

/-- The audio URLs of the successful chunks among `idxs`, in index
order (failed chunks are omitted). -/
def audioSuccesses (env : GenEnv) (idxs : List Nat) : List String :=
  idxs.filterMap fun i => (env.audioResult i).toOption

/-- The events emitted by the background loop over the chunk indices
`idxs`: one request followed by its resolution, per index, in order. -/
def loopTrace (env : GenEnv) (idxs : List Nat) : List Ev :=
  idxs.flatMap fun i =>
    [Ev.audioRequested i, Ev.audioResolved i (exIsOk (env.audioResult i))]

/-- Function `addToLibrary` of the `App` component: build a new episode and prepend it
to the library, also switching the visible episode / category / cover
and raising a notification. -/
def addToLibrary (episodeId : String) (script : PodcastScript)
    (audioSegments : List String) (category : String)
    (customImage : Option String) (s : AppState) : AppState :=
  let newEpisode : PodcastEpisode :=
    { id := episodeId, script := script, audioSegments := audioSegments,
      category := category, customImage := customImage }
  { s with
    library := newEpisode :: s.library,
    currentEpisodeId := some newEpisode.id,
    activeCategory := category,
    customCoverUrl := customImage,
    notification := some "Episode saved to Library" }

/-- Function `handleStopGeneration`: bump the epoch and reset the status. -/
def handleStopGeneration (m : Model) : Model :=
  { generationId := m.generationId + 1,
    state := { m.state with
      status := .idle, isAudioGenerating := false, error := none } }

/-- The synchronous state reset at the start of `handleGenerationFlow`
(the first `setState` of the `try` block). -/
def resetForGeneration (category : String) (customImage : Option String)
    (s : AppState) : AppState :=
  { s with
    status := .scripting, error := none, audioSegments := [],
    script := none, currentEpisodeId := none, activeCategory := category,
    customCoverUrl := customImage, isAudioGenerating := false }

/-- The `setState` performed right after `generateScript` resolves and
the epoch check passes: store the script, move to `synthesizing`, raise
the audio flag. -/
def storeScript (script : PodcastScript) (s : AppState) : AppState :=
  { s with
    script := some script, status := .synthesizing,
    isAudioGenerating := true }

/-- The continuation of the outer `catch` block when `generateScript`
rejects: gated on the captured epoch, set an error state. -/
def scriptFailureResume (currentGenId : Nat) (msg : String) (m : Model) : Model :=
  if m.generationId = currentGenId then
    { m with state := { m.state with
        status := .error, isAudioGenerating := false, error := some msg } }
  else m

/-- The continuation of the first-chunk `catch` block
(`catch (e) { ...; setState(...status: 'error'...); return; }`).
The source performs NO generation-id check in this catch block — this
is the one asynchronous resumption of the controller that writes state
without comparing its captured epoch against the current one. -/
def chunk0FailureResume (s : AppState) : AppState :=
  { s with
    isAudioGenerating := false, status := .error,
    error := some "Failed to generate audio." }

/-- The continuation of the background image task once
`generateCoverImage` settles: when the task ran at all
(`shouldGenerateImage && !finalCoverUrl`), a successful non-empty URL
is kept only under a passing epoch check; failures are swallowed.
Returns the new `finalCoverUrl` closure variable and the new model. -/
def imageTaskResume (currentGenId : Nat) (shouldGenerateImage : Bool)
    (finalCoverUrl : Option String) (imageResult : Except String String)
    (m : Model) : Option String × Model :=
  if shouldGenerateImage && !(truthy finalCoverUrl) then
    match imageResult with
    | .ok generatedUrl =>
      if m.generationId = currentGenId && !generatedUrl.isEmpty then
        (some generatedUrl,
          { m with state := { m.state with customCoverUrl := some generatedUrl } })
      else (finalCoverUrl, m)
    | .error _ => (finalCoverUrl, m)
  else (finalCoverUrl, m)

/-- The value of the `finalCoverUrl` closure variable at commit time,
as a pure function of the image-task inputs (proved equal to the first
component of `imageTaskResume` under a current epoch). -/
def resolvedCover (shouldGenerateImage : Bool) (customImage : Option String)
    (imageResult : Except String String) : Option String :=
  if shouldGenerateImage && !(truthy customImage) then
    match imageResult with
    | .ok generatedUrl =>
      if !generatedUrl.isEmpty then some generatedUrl else customImage
    | .error _ => customImage
  else customImage

/-- The tail of the background task: gated on the captured epoch, leave
`synthesizing`, and commit the episode to the library. -/
def commitResume (episodeId : String) (currentGenId : Nat)
    (script : PodcastScript) (audioUrls : List String) (category : String)
    (finalCoverUrl : Option String) (m : Model) : Model × List Ev :=
  if m.generationId = currentGenId then
    let stopped := { m.state with isAudioGenerating := false, status := Status.complete }
    ({ m with state := addToLibrary episodeId script audioUrls category finalCoverUrl stopped },
      [Ev.committed episodeId])
  else (m, [])

/-- The background chunk loop
`for (let i = 1; i < scriptChunks.length; i++)`, as a recursion over
the list of remaining chunk indices.  Both epoch checks of the source
body (before issuing the request and after the `await`) are kept; a
chunk failure only logs and continues.  Returns the final model, the
accumulated local `audioUrls` array, and the emitted events. -/
def backgroundChunks (env : GenEnv) (currentGenId : Nat) :
    List Nat → List String → Model → Model × List String × List Ev
  | [], audioUrls, m => (m, audioUrls, [])
  | i :: rest, audioUrls, m =>
    if m.generationId ≠ currentGenId then (m, audioUrls, [])
    else
      match env.audioResult i with
      | .ok audioUrl =>
        if m.generationId ≠ currentGenId then
          (m, audioUrls, [Ev.audioRequested i, Ev.audioResolved i true])
        else
          let m1 : Model := { m with state := { m.state with
            audioSegments := m.state.audioSegments ++ [audioUrl] } }
          let out := backgroundChunks env currentGenId rest (audioUrls ++ [audioUrl]) m1
          (out.1, out.2.1, Ev.audioRequested i :: Ev.audioResolved i true :: out.2.2)
      | .error _ =>
        let out := backgroundChunks env currentGenId rest audioUrls m
        (out.1, out.2.1, Ev.audioRequested i :: Ev.audioResolved i false :: out.2.2)

/-- Function `handleGenerationFlow`.  The run allocates the new epoch
`currentGenId = generationId + 1`, resets the state, and then applies
the awaited continuations in the order the source awaits them:
script resolution, first chunk (awaited by the caller), the background
loop over chunks `1..`, the image task, and the commit.  The image
continuation is applied at its join point (`await imageGenPromise`,
immediately before the commit): within a run the store is touched by no
external actor, so every placement of the image resumption between
script resolution and the commit yields this same final model — its
epoch check reads the same `generationId` and the `customCoverUrl` it
writes is overwritten by `addToLibrary` at commit time.  A run of this
function is therefore exactly a session whose epoch stays current;
superseded-epoch interleavings are built from the same continuation
functions around `handleStopGeneration` (see `staleChunk0Run`). -/
def handleGenerationFlow (env : GenEnv) (category : String)
    (customImage : Option String) (shouldGenerateImage : Bool)
    (m0 : Model) : Model × List Ev :=
  let currentGenId := m0.generationId + 1
  let m1 : Model := { generationId := currentGenId,
                      state := resetForGeneration category customImage m0.state }
  match env.scriptResult with
  | .error msg =>
    (scriptFailureResume currentGenId msg m1, [Ev.scriptRequested, Ev.scriptResolved false])
  | .ok script =>
    if m1.generationId = currentGenId then
      let m2 : Model := { m1 with state := storeScript script m1.state }
      let scriptChunks := chunkScript script 6
      let finalCoverUrl := customImage
      if scriptChunks.length > 0 then
        match env.audioResult 0 with
        | .ok firstAudioUrl =>
          if m2.generationId = currentGenId then
            let m3 : Model := { m2 with state := { m2.state with
              audioSegments := [firstAudioUrl] } }
            let loopOut := backgroundChunks env currentGenId
              (List.range' 1 (scriptChunks.length - 1)) [firstAudioUrl] m3
            let imgOut := imageTaskResume currentGenId shouldGenerateImage
              finalCoverUrl env.imageResult loopOut.1
            let commitOut := commitResume env.episodeId currentGenId script
              loopOut.2.1 category imgOut.1 imgOut.2
            (commitOut.1,
              [Ev.scriptRequested, Ev.scriptResolved true,
               Ev.audioRequested 0, Ev.audioResolved 0 true]
                ++ loopOut.2.2 ++ [Ev.imageResolved] ++ commitOut.2)
          else
            (m2, [Ev.scriptRequested, Ev.scriptResolved true,
                  Ev.audioRequested 0, Ev.audioResolved 0 true])
        | .error _ =>
          ({ m2 with state := chunk0FailureResume m2.state },
            [Ev.scriptRequested, Ev.scriptResolved true,
             Ev.audioRequested 0, Ev.audioResolved 0 false])
      else
        let imgOut := imageTaskResume currentGenId shouldGenerateImage
          finalCoverUrl env.imageResult m2
        let commitOut := commitResume env.episodeId currentGenId script
          [] category imgOut.1 imgOut.2
        (commitOut.1,
          [Ev.scriptRequested, Ev.scriptResolved true, Ev.imageResolved]
            ++ commitOut.2)
    else (m1, [Ev.scriptRequested, Ev.scriptResolved true])

/-! ## Topic registry (`App` component, `handleAddTopic`) -/

/-- The synchronous part of `handleAddTopic`: insert the fresh topic,
loading, with no feeds and no image. -/
def handleAddTopicStart (newTopicId name description : String)
    (color : Option String) (s : AppState) : AppState :=
  let newTopic : NewsTopic :=
    { id := newTopicId, name := name, description := some description,
      rssUrls := [], isCustom := true, isLoading := true,
      color := orDefault color "slate", customImage := none }
  { s with topics := s.topics ++ [newTopic] }

/-- The settlement of `Promise.all([rssPromise, imagePromise])`:
when both enrichment tasks resolve, store the validated feeds and the
image and clear `isLoading`; when either rejects, the `.catch` handler
only clears `isLoading`. -/
def handleAddTopicSettle (newTopicId : String)
    (rssResult : Except String (List String))
    (imageResult : Except String String) (s : AppState) : AppState :=
  match rssResult, imageResult with
  | .ok validUrls, .ok generatedImage =>
    { s with topics := s.topics.map fun t =>
        if t.id = newTopicId
        then { t with rssUrls := validUrls,
                      customImage := some generatedImage, isLoading := false }
        else t }
  | _, _ =>
    { s with topics := s.topics.map fun t =>
        if t.id = newTopicId then { t with isLoading := false } else t }

/-- Function `handleAddTopic` end to end, for given outcomes of the two
enrichment tasks. -/
def handleAddTopic (newTopicId name description : String)
    (color : Option String) (rssResult : Except String (List String))
    (imageResult : Except String String) (s : AppState) : AppState :=
  handleAddTopicSettle newTopicId rssResult imageResult
    (handleAddTopicStart newTopicId name description color s)

/-- The final value of a freshly added topic once both enrichment tasks
settled (proved against `handleAddTopic` in the claim-C8 theorem). -/
def settledTopic (newTopicId name description : String)
    (color : Option String) (rssResult : Except String (List String))
    (imageResult : Except String String) : NewsTopic :=
  let newTopic : NewsTopic :=
    { id := newTopicId, name := name, description := some description,
      rssUrls := [], isCustom := true, isLoading := true,
      color := orDefault color "slate", customImage := none }
  match rssResult, imageResult with
  | .ok validUrls, .ok generatedImage =>
    { newTopic with rssUrls := validUrls,
                    customImage := some generatedImage, isLoading := false }
  | _, _ => { newTopic with isLoading := false }

/-! ## Concrete inputs used by closed theorems -/

/-- The initial application state (the `useState` initializer),
restricted to the modelled fields. -/
def initialState : AppState :=
  { status := .idle, script := none, audioSegments := [],
    isAudioGenerating := false, error := none, notification := none,
    currentEpisodeId := none, activeCategory := "custom",
    customCoverUrl := none, library := [], topics := [] }

/-- A small concrete script used by closed runs. -/
def demoScript : PodcastScript :=
  { title := "Demo", topic := "demo", summary := "s", digest := "d",
    lines := [{ speaker := "Alex", text := "hello" }] }

/-- The model at the suspension point where session `generationId + 1`
awaits the first chunk's synthesis: epoch allocated, state reset,
script stored.  (This composes the same steps `handleGenerationFlow`
performs before `await generateAudio(scriptChunks[0])`.) -/
def flowBeforeChunk0 (category : String) (customImage : Option String)
    (script : PodcastScript) (m0 : Model) : Model :=
  { generationId := m0.generationId + 1,
    state := storeScript script (resetForGeneration category customImage m0.state) }

/-- The cancellation interleaving of claim C1: session 1 starts, stores
its script and awaits chunk-0 audio; the user cancels
(`handleStopGeneration`, epoch becomes 2, status `idle`); then session
1's chunk-0 synthesis rejects and its catch block — the one resumption
with no epoch check — runs against the store. -/
def staleChunk0Run : Model :=
  let mAwaiting := flowBeforeChunk0 "custom" none demoScript
    { generationId := 0, state := initialState }
  let mStopped := handleStopGeneration mAwaiting
  { mStopped with state := chunk0FailureResume mStopped.state }

/-- A 7-line script: two chunks at 6 lines per chunk. -/
def demoScript7 : PodcastScript :=
  { title := "Demo7", topic := "demo", summary := "s", digest := "d",
    lines := (List.range 7).map fun i => { speaker := "Alex", text := toString i } }

/-- A script with no dialogue lines. -/
def demoScriptEmpty : PodcastScript :=
  { title := "Empty", topic := "demo", summary := "s", digest := "d",
    lines := [] }

/-- Oracle for the C2 witness: everything succeeds. -/
def envAllOk : GenEnv :=
  { scriptResult := .ok demoScript, audioResult := fun _ => .ok "url",
    imageResult := .ok "img", episodeId := "ep-ok" }

/-- Oracle for the C3 witness: chunk-0 synthesis fails. -/
def envChunk0Fail : GenEnv :=
  { scriptResult := .ok demoScript, audioResult := fun _ => .error "tts down",
    imageResult := .ok "", episodeId := "ep-fail" }

/-- Oracle for the C4 witness: chunk 0 succeeds, chunk 1 fails. -/
def envSkipChunk1 : GenEnv :=
  { scriptResult := .ok demoScript7,
    audioResult := fun i => if i = 0 then .ok "url0" else .error "boom",
    imageResult := .ok "img", episodeId := "ep-skip" }

/-- Oracle for the C10 witness: the generated script has no lines. -/
def envEmptyScript : GenEnv :=
  { scriptResult := .ok demoScriptEmpty,
    audioResult := fun _ => .error "never called",
    imageResult := .ok "img", episodeId := "ep-empty" }

/-! ## Theorems -/

/-! ### Script chunking -/

theorem chunkLines_flatten {α : Type} (k : Nat) (hk : 0 < k) (xs : List α) :
    (chunkLines k xs).flatten = xs := by
  have key : ∀ (n : Nat) (xs : List α), xs.length ≤ n →
      (chunkLines k xs).flatten = xs := by
    intro n
    induction n with
    | zero =>
      intro xs hx
      have hnil : xs = [] := List.eq_nil_of_length_eq_zero (Nat.le_zero.mp hx)
      subst hnil
      rw [chunkLines]
      simp
    | succ n ih =>
      intro xs hx
      cases xs with
      | nil => rw [chunkLines]; simp
      | cons y ys =>
        rw [chunkLines]
        rw [if_neg (by simp), if_neg (by omega)]
        rw [List.flatten_cons]
        rw [ih ((y :: ys).drop k)
          (by simp only [List.length_drop, List.length_cons]
              simp only [List.length_cons] at hx
              omega)]
        exact List.take_append_drop k (y :: ys)
  exact key xs.length xs (Nat.le_refl _)

theorem chunkLines_length {α : Type} (k : Nat) (hk : 0 < k) (xs : List α) :
    (chunkLines k xs).length = (xs.length + k - 1) / k := by
  have key : ∀ (n : Nat) (xs : List α), xs.length ≤ n →
      (chunkLines k xs).length = (xs.length + k - 1) / k := by
    intro n
    induction n with
    | zero =>
      intro xs hx
      have hnil : xs = [] := List.eq_nil_of_length_eq_zero (Nat.le_zero.mp hx)
      subst hnil
      rw [chunkLines]
      simp [Nat.div_eq_of_lt (by omega : k - 1 < k)]
    | succ n ih =>
      intro xs hx
      cases xs with
      | nil =>
        rw [chunkLines]
        simp [Nat.div_eq_of_lt (by omega : k - 1 < k)]
      | cons y ys =>
        rw [chunkLines]
        rw [if_neg (by simp), if_neg (by omega)]
        rw [List.length_cons]
        rw [ih ((y :: ys).drop k)
          (by simp only [List.length_drop, List.length_cons]
              simp only [List.length_cons] at hx
              omega)]
        simp only [List.length_drop, List.length_cons]
        rcases Nat.lt_or_ge ys.length.succ k with hlt | hge
        · have h1 : ys.length + 1 - k = 0 := by omega
          rw [show ys.length + 1 - k + k - 1 = k - 1 by omega]
          rw [Nat.div_eq_of_lt (by omega : k - 1 < k)]
          have h2 : (ys.length + 1 + k - 1) / k = 1 := by
            apply Nat.div_eq_of_lt_le <;> omega
          omega
        · have h3 : ys.length + 1 - k + k - 1 = ys.length := by omega
          have h4 : ys.length + 1 + k - 1 = ys.length + k := by omega
          rw [h3, h4, Nat.add_div_right _ hk]
  exact key xs.length xs (Nat.le_refl _)

theorem chunkLines_sizes {α : Type} (k : Nat) (hk : 0 < k) (xs : List α) :
    ∀ c ∈ chunkLines k xs, c.length ≤ k := by
  have key : ∀ (n : Nat) (xs : List α), xs.length ≤ n →
      ∀ c ∈ chunkLines k xs, c.length ≤ k := by
    intro n
    induction n with
    | zero =>
      intro xs hx
      have hnil : xs = [] := List.eq_nil_of_length_eq_zero (Nat.le_zero.mp hx)
      subst hnil
      rw [chunkLines]
      simp
    | succ n ih =>
      intro xs hx
      cases xs with
      | nil => rw [chunkLines]; simp
      | cons y ys =>
        rw [chunkLines]
        rw [if_neg (by simp), if_neg (by omega)]
        intro c hc
        rcases List.mem_cons.mp hc with hc | hc
        · subst hc
          simp [List.length_take]
        · exact ih ((y :: ys).drop k)
            (by simp only [List.length_drop, List.length_cons]
                simp only [List.length_cons] at hx
                omega) c hc
  exact key xs.length xs (Nat.le_refl _)

/-- Claim C5: for a script with `L` dialogue lines and positive chunk
size `K`, `chunkScript` returns exactly `⌈L / K⌉` sub-scripts (zero
when `L = 0`), each of at most `K` lines and sharing the parent's
title / topic / summary / digest, and the concatenation of the chunks'
line lists in order is the original line sequence.  (The function is a
total Lean `def`, hence deterministic and failure-free by
construction.) -/
theorem c5_chunkScript_partitions (script : PodcastScript) (K : Nat) (hK : 0 < K) :
    (chunkScript script K).length = (script.lines.length + K - 1) / K ∧
    ((chunkScript script K).map PodcastScript.lines).flatten = script.lines ∧
    (∀ c ∈ chunkScript script K,
      c.lines.length ≤ K ∧ c.title = script.title ∧ c.topic = script.topic ∧
      c.summary = script.summary ∧ c.digest = script.digest) ∧
    (script.lines = [] → chunkScript script K = []) := by
  refine ⟨?_, ?_, ?_, ?_⟩
  · rw [chunkScript, List.length_map]
    exact chunkLines_length K hK script.lines
  · rw [chunkScript, List.map_map]
    have hmap : (PodcastScript.lines ∘ fun ls => { script with lines := ls })
        = fun ls : List ScriptLine => ls := by
      funext ls
      rfl
    rw [hmap, List.map_id']
    exact chunkLines_flatten K hK script.lines
  · intro c hc
    rw [chunkScript] at hc
    rcases List.mem_map.mp hc with ⟨ls, hls, heq⟩
    subst heq
    exact ⟨chunkLines_sizes K hK script.lines ls hls, rfl, rfl, rfl, rfl⟩
  · intro hnil
    rw [chunkScript, hnil, chunkLines]
    simp

/-- Witness for C5 at the spec's example shape: a 9-line script with
chunk size 6 yields 2 chunks whose lines re-concatenate to the
original. -/
theorem c5_witness :
    0 < 6 ∧
    ((chunkScript
        { title := "w", topic := "w", summary := "w", digest := "w",
          lines := (List.range 9).map fun i =>
            { speaker := "Alex", text := toString i } } 6).length
      = (((List.range 9).map fun i =>
            ({ speaker := "Alex", text := toString i } : ScriptLine)).length + 6 - 1) / 6) := by
  refine ⟨by decide, ?_⟩
  exact (c5_chunkScript_partitions _ 6 (by decide)).1

/-! ### WAV codec -/

theorem createWavBlob_drop44 (pcm : List Nat) (R : Nat) :
    (createWavBlob pcm R).drop 44 = pcm := by
  have hR4 : asciiBytes "RIFF" = [82, 73, 70, 70] := rfl
  have hW4 : asciiBytes "WAVE" = [87, 65, 86, 69] := rfl
  have hF4 : asciiBytes "fmt " = [102, 109, 116, 32] := rfl
  have hD4 : asciiBytes "data" = [100, 97, 116, 97] := rfl
  simp only [createWavBlob, hR4, hW4, hF4, hD4, u32le, u16le,
    List.cons_append, List.nil_append]
  simp [List.drop_succ_cons]

theorem createWavBlob_dataSizeField (pcm : List Nat) (R : Nat)
    (hN : pcm.length < 4294967296) :
    readU32le (createWavBlob pcm R) 40 = pcm.length := by
  have hR4 : asciiBytes "RIFF" = [82, 73, 70, 70] := rfl
  have hW4 : asciiBytes "WAVE" = [87, 65, 86, 69] := rfl
  have hF4 : asciiBytes "fmt " = [102, 109, 116, 32] := rfl
  have hD4 : asciiBytes "data" = [100, 97, 116, 97] := rfl
  simp only [createWavBlob, hR4, hW4, hF4, hD4, u32le, u16le,
    List.cons_append, List.nil_append, readU32le]
  simp [List.getD]
  omega

theorem createWavBlob_sampleRateField (pcm : List Nat) (R : Nat)
    (hR : R < 4294967296) :
    readU32le (createWavBlob pcm R) 24 = R := by
  have hR4 : asciiBytes "RIFF" = [82, 73, 70, 70] := rfl
  have hW4 : asciiBytes "WAVE" = [87, 65, 86, 69] := rfl
  have hF4 : asciiBytes "fmt " = [102, 109, 116, 32] := rfl
  have hD4 : asciiBytes "data" = [100, 97, 116, 97] := rfl
  simp only [createWavBlob, hR4, hW4, hF4, hD4, u32le, u16le,
    List.cons_append, List.nil_append, readU32le]
  simp [List.getD]
  omega

/-- Claim C6: `createWavBlob` on `N` PCM bytes at sample rate `R`
produces a 44-byte header followed by the unmodified payload, with
every header field byte-exact: "RIFF", little-endian
`fileSize = 36 + N`, "WAVE", "fmt ", sub-chunk size 16, PCM format 1,
1 channel, sample rate `R`, byte rate `R * 2`, block align 2, 16 bits
per sample, "data", data size `N`.  (The numeric fields are read back
little-endian by `readU16le` / `readU32le`; the bounds are the 32-bit
ranges the `DataView` writes faithfully represent.) -/
theorem c6_createWavBlob_header (pcm : List Nat) (R : Nat)
    (hN : 36 + pcm.length < 4294967296) (hR : R * 2 < 4294967296) :
    (createWavBlob pcm R).length = 44 + pcm.length ∧
    (createWavBlob pcm R).take 4 = asciiBytes "RIFF" ∧
    readU32le (createWavBlob pcm R) 4 = 36 + pcm.length ∧
    ((createWavBlob pcm R).drop 8).take 4 = asciiBytes "WAVE" ∧
    ((createWavBlob pcm R).drop 12).take 4 = asciiBytes "fmt " ∧
    readU32le (createWavBlob pcm R) 16 = 16 ∧
    readU16le (createWavBlob pcm R) 20 = 1 ∧
    readU16le (createWavBlob pcm R) 22 = 1 ∧
    readU32le (createWavBlob pcm R) 24 = R ∧
    readU32le (createWavBlob pcm R) 28 = R * 2 ∧
    readU16le (createWavBlob pcm R) 32 = 2 ∧
    readU16le (createWavBlob pcm R) 34 = 16 ∧
    ((createWavBlob pcm R).drop 36).take 4 = asciiBytes "data" ∧
    readU32le (createWavBlob pcm R) 40 = pcm.length ∧
    (createWavBlob pcm R).drop 44 = pcm := by
  have hR4 : asciiBytes "RIFF" = [82, 73, 70, 70] := rfl
  have hW4 : asciiBytes "WAVE" = [87, 65, 86, 69] := rfl
  have hF4 : asciiBytes "fmt " = [102, 109, 116, 32] := rfl
  have hD4 : asciiBytes "data" = [100, 97, 116, 97] := rfl
  refine ⟨?_, ?_, ?_, ?_, ?_, ?_, ?_, ?_, ?_, ?_, ?_, ?_, ?_, ?_,
    createWavBlob_drop44 pcm R⟩ <;>
    · simp only [createWavBlob, hR4, hW4, hF4, hD4, u32le, u16le,
        List.cons_append, List.nil_append, readU32le, readU16le]
      simp [List.getD, List.drop_succ_cons, List.take_succ_cons]
      try omega

/-- Witness for C6 at a concrete buffer: 3 PCM bytes at 24000 Hz. -/
theorem c6_witness :
    readU32le (createWavBlob [7, 8, 9] 24000) 4 = 36 + ([7, 8, 9] : List Nat).length ∧
    readU32le (createWavBlob [7, 8, 9] 24000) 28 = 24000 * 2 ∧
    (createWavBlob [7, 8, 9] 24000).drop 44 = [7, 8, 9] := by
  have h := c6_createWavBlob_header [7, 8, 9] 24000 (by decide) (by decide)
  exact ⟨h.2.2.1, h.2.2.2.2.2.2.2.2.2.1, h.2.2.2.2.2.2.2.2.2.2.2.2.2.2⟩

/-- Claim C7: `mergeAudioSegments` strips exactly the first 44 bytes of
every fetched segment at least 45 bytes long (shorter segments
contribute nothing), concatenates the payloads in input order, and
re-encodes at 24000 Hz; when every segment is at least 45 bytes long
the data-size field is the sum of the payload lengths and the payload
is the straight concatenation of the stripped payloads. -/
theorem c7_mergeAudioSegments_strips (buffers : List (List Nat)) :
    (mergeAudioSegments buffers).drop 44 =
      (buffers.map fun b => if b.length ≤ 44 then [] else b.drop 44).flatten ∧
    readU32le (mergeAudioSegments buffers) 24 = 24000 ∧
    ((∀ b ∈ buffers, 45 ≤ b.length) →
      (mergeAudioSegments buffers).drop 44 = (buffers.map fun b => b.drop 44).flatten ∧
      ((buffers.map fun b => b.length - 44).sum < 4294967296 →
        readU32le (mergeAudioSegments buffers) 40 =
          (buffers.map fun b => b.length - 44).sum)) := by
  have hm : mergeAudioSegments buffers =
      createWavBlob
        ((buffers.map fun b => if b.length ≤ 44 then [] else b.drop 44).flatten)
        24000 := rfl
  have hpay : ∀ hb : ∀ b ∈ buffers, 45 ≤ b.length,
      (buffers.map fun b => if b.length ≤ 44 then [] else b.drop 44)
        = buffers.map fun b => b.drop 44 := by
    intro hb
    apply List.map_congr_left
    intro b hbmem
    rw [if_neg (by have := hb b hbmem; omega)]
  refine ⟨?_, ?_, ?_⟩
  · rw [hm, createWavBlob_drop44]
  · rw [hm, createWavBlob_sampleRateField _ _ (by omega)]
  · intro hb
    refine ⟨?_, ?_⟩
    · rw [hm, createWavBlob_drop44, hpay hb]
    · intro hsum
      rw [hm, createWavBlob_dataSizeField, hpay hb, List.length_flatten,
        List.map_map]
      · apply congrArg
        apply List.map_congr_left
        intro b hbmem
        simp only [Function.comp_apply, List.length_drop]
      · rw [hpay hb, List.length_flatten, List.map_map]
        have hlen : (buffers.map (List.length ∘ fun b => b.drop 44)).sum
            = (buffers.map fun b => b.length - 44).sum := by
          apply congrArg
          apply List.map_congr_left
          intro b hbmem
          simp only [Function.comp_apply, List.length_drop]
        omega

/-- Witness for C7: two segments of 45 and 46 bytes merge into a
container whose payload is their stripped payloads in order. -/
theorem c7_witness :
    (∀ b ∈ [List.replicate 44 0 ++ [1], List.replicate 44 0 ++ [2, 3]],
      45 ≤ b.length) ∧
    (mergeAudioSegments [List.replicate 44 0 ++ [1], List.replicate 44 0 ++ [2, 3]]).drop 44
      = ([List.replicate 44 0 ++ [1], List.replicate 44 0 ++ [2, 3]].map
          fun b => b.drop 44).flatten := by
  refine ⟨by decide, ?_⟩
  exact ((c7_mergeAudioSegments_strips
    [List.replicate 44 0 ++ [1], List.replicate 44 0 ++ [2, 3]]).2.2 (by decide)).1

/-! ### Audio synthesis retries -/

theorem genAudioGo_attempts_le (attemptOutcome : Nat → Except String String) :
    ∀ (r a : Nat), (genAudioGo attemptOutcome a r).attemptsMade ≤ r := by
  intro r
  induction r with
  | zero => intro a; simp [genAudioGo]
  | succ n ih =>
    intro a
    rw [genAudioGo]
    cases attemptOutcome a with
    | ok url => simp
    | error e =>
      by_cases hn : n = 0
      · simp [hn]
      · simp only [if_neg hn]
        have := ih (a + 1)
        show (genAudioGo attemptOutcome (a + 1) n).attemptsMade + 1 ≤ n + 1
        omega

/-- Claim C9: `generateAudio` makes at most 4 attempts (1 initial + 3
retries); if all 4 fail it ends with the last error after sleeping
1000, 2000 and 4000 ms before the retries; the first successful attempt
`k` ends the loop with that attempt's URL, `k + 1` attempts made, and
backoff delays `1000 * 2 ^ j` for `j < k`. -/
theorem c9_generateAudioRetries (attemptOutcome : Nat → Except String String) :
    (generateAudioRun attemptOutcome).attemptsMade ≤ 4 ∧
    (∀ es : Nat → String, (∀ i, i < 4 → attemptOutcome i = .error (es i)) →
      generateAudioRun attemptOutcome
        = ⟨.error (es 3), 4, [1000, 2000, 4000]⟩) ∧
    (∀ (k : Nat) (url : String) (es : Nat → String), k ≤ 3 →
      (∀ j, j < k → attemptOutcome j = .error (es j)) →
      attemptOutcome k = .ok url →
      generateAudioRun attemptOutcome
        = ⟨.ok url, k + 1, (List.range k).map fun j => 1000 * 2 ^ j⟩) := by
  refine ⟨genAudioGo_attempts_le attemptOutcome 4 0, ?_, ?_⟩
  · intro es h
    have h0 := h 0 (by omega)
    have h1 := h 1 (by omega)
    have h2 := h 2 (by omega)
    have h3 := h 3 (by omega)
    simp [generateAudioRun, maxRetries, genAudioGo, h0, h1, h2, h3]
  · intro k url es hk hfail hok
    interval_cases k
    · simp [generateAudioRun, maxRetries, genAudioGo, hok]
    · have h0 := hfail 0 (by omega)
      simp [generateAudioRun, maxRetries, genAudioGo, h0, hok,
        List.range_succ]
    · have h0 := hfail 0 (by omega)
      have h1 := hfail 1 (by omega)
      simp [generateAudioRun, maxRetries, genAudioGo, h0, h1, hok,
        List.range_succ]
    · have h0 := hfail 0 (by omega)
      have h1 := hfail 1 (by omega)
      have h2 := hfail 2 (by omega)
      simp [generateAudioRun, maxRetries, genAudioGo, h0, h1, h2, hok,
        List.range_succ]

/-- Witness for C9: with every attempt failing, the run makes 4
attempts, sleeps 1s, 2s, 4s, and raises the last error. -/
theorem c9_witness :
    generateAudioRun (fun _ => Except.error "boom")
      = ⟨Except.error "boom", 4, [1000, 2000, 4000]⟩ :=
  (c9_generateAudioRetries (fun _ => Except.error "boom")).2.1
    (fun _ => "boom") (fun _ _ => rfl)

/-! ### Generation controller: the background loop under a current
epoch -/

theorem toOption_ok (a : String) :
    (Except.ok a : Except String String).toOption = some a := rfl

theorem toOption_error (e : String) :
    (Except.error e : Except String String).toOption = none := rfl

theorem backgroundChunks_spec (env : GenEnv) (g : Nat) :
    ∀ (idxs : List Nat) (urls : List String) (m : Model),
      m.generationId = g →
      backgroundChunks env g idxs urls m =
        ({ m with state := { m.state with
            audioSegments := m.state.audioSegments ++ audioSuccesses env idxs } },
          urls ++ audioSuccesses env idxs,
          loopTrace env idxs) := by
  intro idxs
  induction idxs with
  | nil =>
    intro urls m h
    simp [backgroundChunks, audioSuccesses, loopTrace]
  | cons i rest ih =>
    intro urls m h
    rw [backgroundChunks]
    rw [if_neg (by simp [h])]
    cases hres : env.audioResult i with
    | ok audioUrl =>
      dsimp only
      rw [if_neg (by simp [h])]
      rw [ih (urls ++ [audioUrl])
        { m with state := { m.state with
            audioSegments := m.state.audioSegments ++ [audioUrl] } } h]
      simp [audioSuccesses, loopTrace, List.filterMap_cons, hres, exIsOk,
        toOption_ok]
    | error e =>
      dsimp only
      rw [ih urls m h]
      simp [audioSuccesses, loopTrace, List.filterMap_cons, hres, exIsOk,
        toOption_error]

theorem audioSuccesses_length_le (env : GenEnv) (idxs : List Nat) :
    (audioSuccesses env idxs).length ≤ idxs.length :=
  List.length_filterMap_le _ _

theorem audioSuccesses_length_lt (env : GenEnv) (idxs : List Nat) (i : Nat)
    (hmem : i ∈ idxs) (e : String) (herr : env.audioResult i = .error e) :
    (audioSuccesses env idxs).length < idxs.length := by
  induction idxs with
  | nil => cases hmem
  | cons j rest ih =>
    rcases List.mem_cons.mp hmem with hj | hj
    · subst hj
      simp only [audioSuccesses, List.filterMap_cons, herr, toOption_error,
        List.length_cons]
      have := audioSuccesses_length_le env rest
      simp only [audioSuccesses] at this
      omega
    · simp only [audioSuccesses, List.filterMap_cons, List.length_cons]
      cases hres : env.audioResult j with
      | ok u =>
        simp only [toOption_ok, List.length_cons]
        have := ih hj
        simp only [audioSuccesses] at this
        omega
      | error e2 =>
        simp only [toOption_error]
        have := ih hj
        simp only [audioSuccesses] at this
        omega

theorem loopTrace_no_commit (env : GenEnv) (idxs : List Nat) :
    ∀ e ∈ loopTrace env idxs, isCommitEv e = false := by
  induction idxs with
  | nil => intro e he; cases he
  | cons i rest ih =>
    intro e he
    simp only [loopTrace, List.flatMap_cons] at he
    rcases List.mem_append.mp he with he | he
    · rcases List.mem_cons.mp he with he | he
      · subst he; rfl
      · rcases List.mem_cons.mp he with he | he
        · subst he; rfl
        · cases he
    · exact ih e he

theorem loopTrace_no_request_of_ge (env : GenEnv) (lo len : Nat) :
    ∀ e ∈ loopTrace env (List.range' lo len), isAudioRequestEv e = true →
      ∃ i, lo ≤ i ∧ e = Ev.audioRequested i := by
  induction len generalizing lo with
  | zero => intro e he; cases he
  | succ n ih =>
    intro e he hreq
    simp only [List.range'_succ, loopTrace, List.flatMap_cons] at he
    rcases List.mem_append.mp he with he | he
    · rcases List.mem_cons.mp he with he | he
      · exact ⟨lo, Nat.le_refl _, he⟩
      · rcases List.mem_cons.mp he with he | he
        · subst he; cases hreq
        · cases he
    · rcases ih (lo + 1) e he hreq with ⟨i, hi, hei⟩
      exact ⟨i, by omega, hei⟩

/-! ### Generation controller: one run per outcome case -/

theorem imageCommit_spec (episodeId : String) (g : Nat)
    (script : PodcastScript) (urls : List String) (category : String)
    (b : Bool) (cov : Option String) (r : Except String String)
    (m : Model) (h : m.generationId = g) :
    commitResume episodeId g script urls category
        (imageTaskResume g b cov r m).1 (imageTaskResume g b cov r m).2
      = ({ m with
             state := addToLibrary episodeId script urls category
               (resolvedCover b cov r)
               { m.state with isAudioGenerating := false, status := Status.complete } },
          [Ev.committed episodeId]) := by
  by_cases hb : (b && !(truthy cov)) = true
  · cases r with
    | ok generatedUrl =>
      by_cases hu : generatedUrl.isEmpty = true
      · simp [imageTaskResume, resolvedCover, commitResume, addToLibrary,
          hb, hu, h]
      · simp [imageTaskResume, resolvedCover, commitResume, addToLibrary,
          hb, hu, h]
    | error e =>
      simp [imageTaskResume, resolvedCover, commitResume, addToLibrary, hb, h]
  · simp [imageTaskResume, resolvedCover, commitResume, addToLibrary, hb, h]

theorem flow_scriptError_spec (env : GenEnv) (category : String)
    (customImage : Option String) (b : Bool) (m0 : Model) (msg : String)
    (hs : env.scriptResult = .error msg) :
    handleGenerationFlow env category customImage b m0 =
      ({ generationId := m0.generationId + 1,
         state :=
           { status := Status.error, script := none, audioSegments := [],
             isAudioGenerating := false, error := some msg,
             notification := m0.state.notification, currentEpisodeId := none,
             activeCategory := category, customCoverUrl := customImage,
             library := m0.state.library, topics := m0.state.topics } },
        [Ev.scriptRequested, Ev.scriptResolved false]) := by
  rw [handleGenerationFlow, hs]
  simp [scriptFailureResume, resetForGeneration]

theorem flow_zeroChunks_spec (env : GenEnv) (category : String)
    (customImage : Option String) (b : Bool) (m0 : Model)
    (script : PodcastScript)
    (hs : env.scriptResult = .ok script) (hnil : script.lines = []) :
    handleGenerationFlow env category customImage b m0 =
      ({ generationId := m0.generationId + 1,
         state :=
           { status := Status.complete, script := some script,
             audioSegments := [],
             isAudioGenerating := false, error := none,
             notification := some "Episode saved to Library",
             currentEpisodeId := some env.episodeId,
             activeCategory := category,
             customCoverUrl := resolvedCover b customImage env.imageResult,
             library :=
               { id := env.episodeId, script := script,
                 audioSegments := [], category := category,
                 customImage := resolvedCover b customImage env.imageResult }
                 :: m0.state.library,
             topics := m0.state.topics } },
        [Ev.scriptRequested, Ev.scriptResolved true, Ev.imageResolved,
         Ev.committed env.episodeId]) := by
  have hchunks : chunkScript script 6 = [] := by
    rw [chunkScript, hnil, chunkLines]
    simp
  rw [handleGenerationFlow, hs]
  dsimp only
  rw [if_pos rfl, hchunks]
  rw [if_neg (by simp)]
  simp [imageCommit_spec, addToLibrary, resetForGeneration, storeScript]

theorem flow_chunk0Error_spec (env : GenEnv) (category : String)
    (customImage : Option String) (b : Bool) (m0 : Model)
    (script : PodcastScript) (e : String)
    (hs : env.scriptResult = .ok script)
    (hM : 0 < (chunkScript script 6).length)
    (h0 : env.audioResult 0 = .error e) :
    handleGenerationFlow env category customImage b m0 =
      ({ generationId := m0.generationId + 1,
         state :=
           { status := Status.error, script := some script,
             audioSegments := [],
             isAudioGenerating := false,
             error := some "Failed to generate audio.",
             notification := m0.state.notification, currentEpisodeId := none,
             activeCategory := category, customCoverUrl := customImage,
             library := m0.state.library, topics := m0.state.topics } },
        [Ev.scriptRequested, Ev.scriptResolved true,
         Ev.audioRequested 0, Ev.audioResolved 0 false]) := by
  rw [handleGenerationFlow, hs]
  dsimp only
  rw [if_pos rfl, if_pos (by omega), h0]
  dsimp only
  simp [chunk0FailureResume, resetForGeneration, storeScript]

theorem flow_success_spec (env : GenEnv) (category : String)
    (customImage : Option String) (b : Bool) (m0 : Model)
    (script : PodcastScript) (firstAudioUrl : String)
    (hs : env.scriptResult = .ok script)
    (hM : 0 < (chunkScript script 6).length)
    (h0 : env.audioResult 0 = .ok firstAudioUrl) :
    handleGenerationFlow env category customImage b m0 =
      ({ generationId := m0.generationId + 1,
         state :=
           { status := Status.complete, script := some script,
             audioSegments :=
               firstAudioUrl ::
                 audioSuccesses env (List.range' 1 ((chunkScript script 6).length - 1)),
             isAudioGenerating := false, error := none,
             notification := some "Episode saved to Library",
             currentEpisodeId := some env.episodeId,
             activeCategory := category,
             customCoverUrl := resolvedCover b customImage env.imageResult,
             library :=
               { id := env.episodeId, script := script,
                 audioSegments :=
                   firstAudioUrl ::
                     audioSuccesses env
                       (List.range' 1 ((chunkScript script 6).length - 1)),
                 category := category,
                 customImage := resolvedCover b customImage env.imageResult }
                 :: m0.state.library,
             topics := m0.state.topics } },
        [Ev.scriptRequested, Ev.scriptResolved true,
         Ev.audioRequested 0, Ev.audioResolved 0 true]
          ++ loopTrace env (List.range' 1 ((chunkScript script 6).length - 1))
          ++ [Ev.imageResolved, Ev.committed env.episodeId]) := by
  rw [handleGenerationFlow, hs]
  dsimp only
  rw [if_pos rfl, if_pos (by omega), h0]
  dsimp only
  rw [if_pos rfl]
  simp [backgroundChunks_spec, imageCommit_spec, addToLibrary,
    resetForGeneration, storeScript]

/-! ### Generation controller: claims -/

theorem chunkLines_eq_nil_iff {α : Type} (k : Nat) (xs : List α) :
    chunkLines k xs = [] ↔ xs = [] := by
  constructor
  · intro h
    cases xs with
    | nil => rfl
    | cons y ys =>
      rw [chunkLines] at h
      rw [if_neg (by simp)] at h
      by_cases hk : k = 0
      · rw [if_pos hk] at h; cases h
      · rw [if_neg hk] at h; cases h
  · intro h
    subst h
    rw [chunkLines]
    simp

theorem chunkScript_length (script : PodcastScript) (k : Nat) (hk : 0 < k) :
    (chunkScript script k).length = (script.lines.length + k - 1) / k := by
  rw [chunkScript, List.length_map]
  exact chunkLines_length k hk script.lines

theorem append_singleton_split {α : Type} (c : α) :
    ∀ (pre A post : List α), (∀ x ∈ A, x ≠ c) →
      A ++ [c] = pre ++ c :: post → post = [] := by
  intro pre
  induction pre with
  | nil =>
    intro A post hA h
    cases A with
    | nil =>
      simp only [List.nil_append] at h
      exact (List.cons_eq_cons.mp h).2.symm
    | cons a A2 =>
      simp only [List.cons_append, List.nil_append] at h
      exact absurd (List.cons_eq_cons.mp h).1 (hA a (List.mem_cons_self a A2))
  | cons p pre2 ih =>
    intro A post hA h
    cases A with
    | nil =>
      have hlen := congrArg List.length h
      simp at hlen
    | cons a A2 =>
      simp only [List.cons_append] at h
      exact ih A2 post (fun x hx => hA x (List.mem_cons_of_mem a hx))
        (List.cons_eq_cons.mp h).2

theorem flow_trace_shape (env : GenEnv) (category : String)
    (customImage : Option String) (b : Bool) (m0 : Model) :
    ∃ T : List Ev,
      ((handleGenerationFlow env category customImage b m0).2 = T ∧
        ∀ e ∈ T, isCommitEv e = false) ∨
      ((handleGenerationFlow env category customImage b m0).2
          = T ++ [Ev.committed env.episodeId] ∧
        ∀ e ∈ T, isCommitEv e = false) := by
  cases hscript : env.scriptResult with
  | error msg =>
    refine ⟨[Ev.scriptRequested, Ev.scriptResolved false], Or.inl ⟨?_, ?_⟩⟩
    · rw [flow_scriptError_spec env category customImage b m0 msg hscript]
    · simp [isCommitEv]
  | ok script =>
    by_cases hM : 0 < (chunkScript script 6).length
    · cases h0 : env.audioResult 0 with
      | ok firstAudioUrl =>
        refine ⟨[Ev.scriptRequested, Ev.scriptResolved true,
          Ev.audioRequested 0, Ev.audioResolved 0 true]
            ++ loopTrace env (List.range' 1 ((chunkScript script 6).length - 1))
            ++ [Ev.imageResolved], Or.inr ⟨?_, ?_⟩⟩
        · rw [flow_success_spec env category customImage b m0 script
            firstAudioUrl hscript hM h0]
          simp
        · intro e he
          simp only [List.mem_append, List.mem_cons] at he
          rcases he with (he | he) | he
          · rcases he with he | he | he | he | he
            · subst he; rfl
            · subst he; rfl
            · subst he; rfl
            · subst he; rfl
            · cases he
          · exact loopTrace_no_commit env _ e he
          · rcases he with he | he
            · subst he; rfl
            · cases he
      | error e =>
        refine ⟨[Ev.scriptRequested, Ev.scriptResolved true,
          Ev.audioRequested 0, Ev.audioResolved 0 false], Or.inl ⟨?_, ?_⟩⟩
        · rw [flow_chunk0Error_spec env category customImage b m0 script e
            hscript hM h0]
        · simp [isCommitEv]
    · have hnil : script.lines = [] := by
        have hlen : (chunkScript script 6).length = 0 := by omega
        have := (chunkLines_eq_nil_iff 6 script.lines).mp
        rw [chunkScript, List.length_map, List.length_eq_zero] at hlen
        exact this hlen
      refine ⟨[Ev.scriptRequested, Ev.scriptResolved true, Ev.imageResolved],
        Or.inr ⟨?_, ?_⟩⟩
      · rw [flow_zeroChunks_spec env category customImage b m0 script hscript hnil]
        rfl
      · simp [isCommitEv]

theorem flow_library_shape (env : GenEnv) (category : String)
    (customImage : Option String) (b : Bool) (m0 : Model) :
    (handleGenerationFlow env category customImage b m0).1.state.library
        = m0.state.library ∨
    ∃ ep : PodcastEpisode,
      (handleGenerationFlow env category customImage b m0).1.state.library
        = ep :: m0.state.library := by
  cases hscript : env.scriptResult with
  | error msg =>
    left
    rw [flow_scriptError_spec env category customImage b m0 msg hscript]
  | ok script =>
    by_cases hM : 0 < (chunkScript script 6).length
    · cases h0 : env.audioResult 0 with
      | ok firstAudioUrl =>
        right
        rw [flow_success_spec env category customImage b m0 script
          firstAudioUrl hscript hM h0]
        exact ⟨_, rfl⟩
      | error e =>
        left
        rw [flow_chunk0Error_spec env category customImage b m0 script e
          hscript hM h0]
    · have hnil : script.lines = [] := by
        have hlen : (chunkScript script 6).length = 0 := by omega
        have := (chunkLines_eq_nil_iff 6 script.lines).mp
        rw [chunkScript, List.length_map, List.length_eq_zero] at hlen
        exact this hlen
      right
      rw [flow_zeroChunks_spec env category customImage b m0 script hscript hnil]
      exact ⟨_, rfl⟩

/-- Claim C2: under a current epoch, at most one episode is ever
committed per run (the library grows by at most one entry and the trace
holds at most one commit event), any commit event is the last event of
the run — in particular after every chunk resolution and after the
image-task resolution — and when the run does commit (chunk 0 succeeded
or there were no chunks) the state ends `complete` with the
synthesizing flag cleared, and the committed episode carries the final
script, the accumulated ordered audio list, the category, and the cover
available at commit time (`resolvedCover`). -/
theorem c2_commitOnceAfterJoin (env : GenEnv) (category : String)
    (customImage : Option String) (b : Bool) (m0 : Model) :
    ((handleGenerationFlow env category customImage b m0).1.state.library.length
        ≤ m0.state.library.length + 1) ∧
    ((handleGenerationFlow env category customImage b m0).2.countP isCommitEv ≤ 1) ∧
    (∀ pre post, (handleGenerationFlow env category customImage b m0).2
        = pre ++ Ev.committed env.episodeId :: post → post = []) ∧
    (∀ script firstAudioUrl, env.scriptResult = .ok script →
      0 < (chunkScript script 6).length →
      env.audioResult 0 = .ok firstAudioUrl →
      (handleGenerationFlow env category customImage b m0).1.state.status
          = Status.complete ∧
      (handleGenerationFlow env category customImage b m0).1.state.isAudioGenerating
          = false ∧
      (handleGenerationFlow env category customImage b m0).1.state.library
        = { id := env.episodeId, script := script,
            audioSegments := firstAudioUrl ::
              audioSuccesses env (List.range' 1 ((chunkScript script 6).length - 1)),
            category := category,
            customImage := resolvedCover b customImage env.imageResult }
            :: m0.state.library) ∧
    (∀ script, env.scriptResult = .ok script → script.lines = [] →
      (handleGenerationFlow env category customImage b m0).1.state.status
          = Status.complete ∧
      (handleGenerationFlow env category customImage b m0).1.state.isAudioGenerating
          = false ∧
      (handleGenerationFlow env category customImage b m0).1.state.library
        = { id := env.episodeId, script := script, audioSegments := [],
            category := category,
            customImage := resolvedCover b customImage env.imageResult }
            :: m0.state.library) := by
  refine ⟨?_, ?_, ?_, ?_, ?_⟩
  · rcases flow_library_shape env category customImage b m0 with h | ⟨ep, h⟩
    · rw [h]; omega
    · rw [h]; simp
  · rcases flow_trace_shape env category customImage b m0 with ⟨T, ⟨hT, hfree⟩ | ⟨hT, hfree⟩⟩
    · rw [hT, List.countP_eq_zero.mpr (by intro e he; simp [hfree e he])]
      omega
    · rw [hT, List.countP_append,
        List.countP_eq_zero.mpr (by intro e he; simp [hfree e he])]
      simp [List.countP_cons, isCommitEv]
  · rcases flow_trace_shape env category customImage b m0 with ⟨T, ⟨hT, hfree⟩ | ⟨hT, hfree⟩⟩
    · intro pre post h
      exfalso
      have hmem : Ev.committed env.episodeId ∈ T := by
        rw [← hT, h]
        exact List.mem_append_right pre (List.mem_cons_self _ post)
      have := hfree _ hmem
      simp [isCommitEv] at this
    · intro pre post h
      rw [hT] at h
      refine append_singleton_split (Ev.committed env.episodeId) pre T post ?_ h
      intro x hx hc
      subst hc
      have := hfree _ hx
      simp [isCommitEv] at this
  · intro script firstAudioUrl hscript hM h0
    rw [flow_success_spec env category customImage b m0 script firstAudioUrl
      hscript hM h0]
    exact ⟨rfl, rfl, rfl⟩
  · intro script hscript hnil
    rw [flow_zeroChunks_spec env category customImage b m0 script hscript hnil]
    exact ⟨rfl, rfl, rfl⟩

/-- Witness for C2 at the all-success oracle: one episode appended,
one commit event, status complete. -/
theorem c2_witness :
    envAllOk.scriptResult = .ok demoScript ∧
    ((handleGenerationFlow envAllOk "custom" none true
        { generationId := 0, state := initialState }).1.state.library.length
      ≤ ({ generationId := 0, state := initialState } : Model).state.library.length + 1) ∧
    (handleGenerationFlow envAllOk "custom" none true
        { generationId := 0, state := initialState }).1.state.status
      = Status.complete := by
  have h := c2_commitOnceAfterJoin envAllOk "custom" none true
    { generationId := 0, state := initialState }
  have hM : 0 < (chunkScript demoScript 6).length := by
    rw [chunkScript_length demoScript 6 (by omega)]
    decide
  exact ⟨rfl, h.1, (h.2.2.2.1 demoScript "url" rfl hM rfl).1⟩

/-- Claim C3: with a current epoch, a chunk-0 synthesis failure (after
the retries inside `generateAudio` are exhausted) sets status `error`,
surfaces the audio error message, leaves the library untouched, keeps
the already-stored script visible, clears the synthesizing flag, and
issues no further audio request (the trace stops at chunk 0's failed
resolution). -/
theorem c3_chunk0FailureFatal (env : GenEnv) (category : String)
    (customImage : Option String) (b : Bool) (m0 : Model)
    (script : PodcastScript) (e : String)
    (hs : env.scriptResult = .ok script)
    (hM : 0 < (chunkScript script 6).length)
    (h0 : env.audioResult 0 = .error e) :
    (handleGenerationFlow env category customImage b m0).1.state.status
        = Status.error ∧
    (handleGenerationFlow env category customImage b m0).1.state.error
        = some "Failed to generate audio." ∧
    (handleGenerationFlow env category customImage b m0).1.state.library
        = m0.state.library ∧
    (handleGenerationFlow env category customImage b m0).1.state.script
        = some script ∧
    (handleGenerationFlow env category customImage b m0).1.state.isAudioGenerating
        = false ∧
    (handleGenerationFlow env category customImage b m0).2
        = [Ev.scriptRequested, Ev.scriptResolved true,
           Ev.audioRequested 0, Ev.audioResolved 0 false] := by
  rw [flow_chunk0Error_spec env category customImage b m0 script e hs hM h0]
  exact ⟨rfl, rfl, rfl, rfl, rfl, rfl⟩

/-- Witness for C3: concrete run whose chunk-0 synthesis fails. -/
theorem c3_witness :
    (handleGenerationFlow envChunk0Fail "custom" none true
        { generationId := 0, state := initialState }).1.state.status
      = Status.error ∧
    (handleGenerationFlow envChunk0Fail "custom" none true
        { generationId := 0, state := initialState }).1.state.library
      = ({ generationId := 0, state := initialState } : Model).state.library ∧
    (handleGenerationFlow envChunk0Fail "custom" none true
        { generationId := 0, state := initialState }).1.state.script
      = some demoScript := by
  have hM : 0 < (chunkScript demoScript 6).length := by
    rw [chunkScript_length demoScript 6 (by omega)]
    decide
  have h := c3_chunk0FailureFatal envChunk0Fail "custom" none true
    { generationId := 0, state := initialState } demoScript "tts down" rfl hM rfl
  exact ⟨h.1, h.2.2.1, h.2.2.2.1⟩

/-- Claim C4: with a current epoch and chunk 0 succeeding, the chunks
are synthesized strictly sequentially in index order (the trace is the
chunk-0 request/resolution followed by one request-then-resolution pair
per index `1..N-1`, in order — `loopTrace`), a failure at `i ≥ 1` is
skipped without aborting, the run ends `complete` with a committed
episode whose audio list is the successful chunks in order, and when
some later chunk failed that list is strictly shorter than the chunk
count. -/
theorem c4_sequentialSkip (env : GenEnv) (category : String)
    (customImage : Option String) (b : Bool) (m0 : Model)
    (script : PodcastScript) (firstAudioUrl : String)
    (hs : env.scriptResult = .ok script)
    (hM : 0 < (chunkScript script 6).length)
    (h0 : env.audioResult 0 = .ok firstAudioUrl) :
    (handleGenerationFlow env category customImage b m0).2
        = [Ev.scriptRequested, Ev.scriptResolved true,
           Ev.audioRequested 0, Ev.audioResolved 0 true]
          ++ loopTrace env (List.range' 1 ((chunkScript script 6).length - 1))
          ++ [Ev.imageResolved, Ev.committed env.episodeId] ∧
    (handleGenerationFlow env category customImage b m0).1.state.status
        = Status.complete ∧
    (handleGenerationFlow env category customImage b m0).1.state.isAudioGenerating
        = false ∧
    (handleGenerationFlow env category customImage b m0).1.state.audioSegments
        = firstAudioUrl ::
            audioSuccesses env (List.range' 1 ((chunkScript script 6).length - 1)) ∧
    (handleGenerationFlow env category customImage b m0).1.state.library
        = { id := env.episodeId, script := script,
            audioSegments := firstAudioUrl ::
              audioSuccesses env (List.range' 1 ((chunkScript script 6).length - 1)),
            category := category,
            customImage := resolvedCover b customImage env.imageResult }
            :: m0.state.library ∧
    (handleGenerationFlow env category customImage b m0).1.state.audioSegments.length
        ≤ (chunkScript script 6).length ∧
    (∀ i e, 1 ≤ i → i < (chunkScript script 6).length →
      env.audioResult i = .error e →
      (handleGenerationFlow env category customImage b m0).1.state.audioSegments.length
        < (chunkScript script 6).length) := by
  rw [flow_success_spec env category customImage b m0 script firstAudioUrl hs hM h0]
  refine ⟨rfl, rfl, rfl, rfl, rfl, ?_, ?_⟩
  · simp only [List.length_cons]
    have hle := audioSuccesses_length_le env
      (List.range' 1 ((chunkScript script 6).length - 1))
    rw [List.length_range'] at hle
    omega
  · intro i e h1 hi herr
    simp only [List.length_cons]
    have hlt := audioSuccesses_length_lt env
      (List.range' 1 ((chunkScript script 6).length - 1)) i
      (by rw [List.mem_range'_1]; omega) e herr
    rw [List.length_range'] at hlt
    omega

/-- Witness for C4: chunk 1 of 2 fails; the run still completes with a
strictly shorter audio list. -/
theorem c4_witness :
    (handleGenerationFlow envSkipChunk1 "custom" none true
        { generationId := 0, state := initialState }).1.state.status
      = Status.complete ∧
    (handleGenerationFlow envSkipChunk1 "custom" none true
        { generationId := 0, state := initialState }).1.state.audioSegments.length
      < (chunkScript demoScript7 6).length := by
  have hM : 0 < (chunkScript demoScript7 6).length := by
    rw [chunkScript_length demoScript7 6 (by omega)]
    simp [demoScript7]
  have hM2 : (chunkScript demoScript7 6).length = 2 := by
    rw [chunkScript_length demoScript7 6 (by omega)]
    simp [demoScript7]
  have h := c4_sequentialSkip envSkipChunk1 "custom" none true
    { generationId := 0, state := initialState } demoScript7 "url0" rfl hM rfl
  exact ⟨h.2.1, h.2.2.2.2.2.2 1 "boom" (by omega) (by omega) rfl⟩

/-- Claim C10: when the generated script has zero dialogue lines (so
zero chunks) and the epoch stays current, the controller issues no
audio request at all, the run still ends `complete`, and exactly one
episode with an empty audio list is committed. -/
theorem c10_emptyScriptCompletes (env : GenEnv) (category : String)
    (customImage : Option String) (b : Bool) (m0 : Model)
    (script : PodcastScript)
    (hs : env.scriptResult = .ok script) (hnil : script.lines = []) :
    chunkScript script 6 = [] ∧
    (handleGenerationFlow env category customImage b m0).2
        = [Ev.scriptRequested, Ev.scriptResolved true, Ev.imageResolved,
           Ev.committed env.episodeId] ∧
    (∀ e ∈ (handleGenerationFlow env category customImage b m0).2,
      isAudioRequestEv e = false) ∧
    (handleGenerationFlow env category customImage b m0).1.state.status
        = Status.complete ∧
    (handleGenerationFlow env category customImage b m0).1.state.library
        = { id := env.episodeId, script := script, audioSegments := [],
            category := category,
            customImage := resolvedCover b customImage env.imageResult }
            :: m0.state.library ∧
    (handleGenerationFlow env category customImage b m0).1.state.library.length
        = m0.state.library.length + 1 := by
  have hchunks : chunkScript script 6 = [] := by
    rw [chunkScript, hnil, chunkLines]
    simp
  rw [flow_zeroChunks_spec env category customImage b m0 script hs hnil]
  refine ⟨hchunks, rfl, ?_, rfl, rfl, by simp⟩
  intro e he
  rcases List.mem_cons.mp he with he | he
  · subst he; rfl
  rcases List.mem_cons.mp he with he | he
  · subst he; rfl
  rcases List.mem_cons.mp he with he | he
  · subst he; rfl
  rcases List.mem_cons.mp he with he | he
  · subst he; rfl
  cases he

/-- Witness for C10: an empty generated script still commits an episode
with no audio segments. -/
theorem c10_witness :
    demoScriptEmpty.lines = [] ∧
    (handleGenerationFlow envEmptyScript "custom" none true
        { generationId := 0, state := initialState }).1.state.status
      = Status.complete ∧
    (handleGenerationFlow envEmptyScript "custom" none true
        { generationId := 0, state := initialState }).1.state.library.length
      = ({ generationId := 0, state := initialState } : Model).state.library.length + 1 := by
  have h := c10_emptyScriptCompletes envEmptyScript "custom" none true
    { generationId := 0, state := initialState } demoScriptEmpty rfl rfl
  exact ⟨rfl, h.2.2.2.1, h.2.2.2.2.2⟩

/-! ### Claim C1: stale results and the missing epoch check -/

/-- Claim C1 names a code bug.  Six of the seven asynchronous
resumptions of `handleGenerationFlow` compare their captured epoch with
`generationIdRef.current` before writing state, but the chunk-0 failure
catch block (`chunk0FailureResume`, source lines 174-178 of the `App`
component) performs no such check.  This theorem evaluates the
cancellation interleaving `staleChunk0Run`: session 1 stores its script
and awaits chunk-0 audio; `handleStopGeneration` advances the epoch to
2 and resets the status to `idle` with no error; then the superseded
session's chunk-0 rejection runs the catch block, which overwrites the
store with an error state — a state mutation from a superseded epoch
that the claim says can never happen. -/
theorem c1_staleChunk0FailureMutates :
    (flowBeforeChunk0 "custom" none demoScript
        { generationId := 0, state := initialState }).generationId = 1 ∧
    (handleStopGeneration (flowBeforeChunk0 "custom" none demoScript
        { generationId := 0, state := initialState })).generationId = 2 ∧
    (handleStopGeneration (flowBeforeChunk0 "custom" none demoScript
        { generationId := 0, state := initialState })).state.status
      = Status.idle ∧
    (handleStopGeneration (flowBeforeChunk0 "custom" none demoScript
        { generationId := 0, state := initialState })).state.error = none ∧
    staleChunk0Run.state.status = Status.error ∧
    staleChunk0Run.state.error = some "Failed to generate audio." ∧
    staleChunk0Run.state ≠ (handleStopGeneration (flowBeforeChunk0 "custom"
        none demoScript { generationId := 0, state := initialState })).state := by
  refine ⟨rfl, rfl, rfl, rfl, rfl, rfl, ?_⟩
  intro h
  have hst := congrArg AppState.status h
  simp [staleChunk0Run, handleStopGeneration, chunk0FailureResume] at hst

/-! ### Claim C8: topic creation and enrichment -/

theorem map_update_of_fresh (newTopicId : String) (f : NewsTopic → NewsTopic) :
    ∀ ts : List NewsTopic, (∀ t ∈ ts, t.id ≠ newTopicId) →
      (ts.map fun t => if t.id = newTopicId then f t else t) = ts := by
  intro ts h
  induction ts with
  | nil => rfl
  | cons t rest ih =>
    rw [List.map_cons, if_neg (h t (List.mem_cons_self t rest)),
      ih fun x hx => h x (List.mem_cons_of_mem t hx)]

/-- Claim C8: `addTopic` inserts the topic synchronously with
`isLoading = true` and no feeds; for every combination of the two
enrichment outcomes the topic is afterwards updated in place — still
present, never left loading — with feeds and image set when both tasks
succeed and feeds left empty when either fails. -/
theorem c8_addTopicSettles (newTopicId name description : String)
    (color : Option String) (rssResult : Except String (List String))
    (imageResult : Except String String) (s0 : AppState)
    (hfresh : ∀ t ∈ s0.topics, t.id ≠ newTopicId) :
    ((handleAddTopicStart newTopicId name description color s0).topics
      = s0.topics ++
        [{ id := newTopicId, name := name, description := some description,
           rssUrls := [], isCustom := true, isLoading := true,
           color := orDefault color "slate", customImage := none }]) ∧
    ((handleAddTopic newTopicId name description color rssResult imageResult
        s0).topics
      = s0.topics ++
        [settledTopic newTopicId name description color rssResult imageResult]) ∧
    (settledTopic newTopicId name description color rssResult
        imageResult).isLoading = false ∧
    (settledTopic newTopicId name description color rssResult
        imageResult).id = newTopicId ∧
    (∀ validUrls generatedImage, rssResult = .ok validUrls →
      imageResult = .ok generatedImage →
      (settledTopic newTopicId name description color rssResult
          imageResult).rssUrls = validUrls ∧
      (settledTopic newTopicId name description color rssResult
          imageResult).customImage = some generatedImage) ∧
    (∀ e, rssResult = .error e →
      (settledTopic newTopicId name description color rssResult
          imageResult).rssUrls = []) ∧
    (∀ e, imageResult = .error e →
      (settledTopic newTopicId name description color rssResult
          imageResult).rssUrls = []) ∧
    (handleAddTopic newTopicId name description color rssResult imageResult
        s0).topics.length = s0.topics.length + 1 := by
  have htopics : (handleAddTopic newTopicId name description color rssResult
      imageResult s0).topics
      = s0.topics ++
        [settledTopic newTopicId name description color rssResult imageResult] := by
    cases rssResult with
    | ok validUrls =>
      cases imageResult with
      | ok generatedImage =>
        simp only [handleAddTopic, handleAddTopicSettle, handleAddTopicStart,
          settledTopic, List.map_append,
          map_update_of_fresh newTopicId _ s0.topics hfresh]
        simp
      | error e =>
        simp only [handleAddTopic, handleAddTopicSettle, handleAddTopicStart,
          settledTopic, List.map_append,
          map_update_of_fresh newTopicId _ s0.topics hfresh]
        simp
    | error e =>
      cases imageResult with
      | ok generatedImage =>
        simp only [handleAddTopic, handleAddTopicSettle, handleAddTopicStart,
          settledTopic, List.map_append,
          map_update_of_fresh newTopicId _ s0.topics hfresh]
        simp
      | error e2 =>
        simp only [handleAddTopic, handleAddTopicSettle, handleAddTopicStart,
          settledTopic, List.map_append,
          map_update_of_fresh newTopicId _ s0.topics hfresh]
        simp
  refine ⟨rfl, htopics, ?_, ?_, ?_, ?_, ?_, ?_⟩
  · cases rssResult <;> cases imageResult <;> rfl
  · cases rssResult <;> cases imageResult <;> rfl
  · intro validUrls generatedImage hrss himg
    subst hrss
    subst himg
    exact ⟨rfl, rfl⟩
  · intro e hrss
    subst hrss
    cases imageResult <;> rfl
  · intro e himg
    subst himg
    cases rssResult <;> rfl
  · rw [htopics]
    simp

/-- Witness for C8: a topic added to the initial (empty-registry) state
with both enrichment tasks succeeding ends present and not loading. -/
theorem c8_witness :
    (handleAddTopic "id1" "news" "desc" none (.ok ["feed1"]) (.ok "img")
        initialState).topics
      = initialState.topics ++
        [settledTopic "id1" "news" "desc" none (.ok ["feed1"]) (.ok "img")] ∧
    (settledTopic "id1" "news" "desc" none (.ok ["feed1"])
        (.ok "img")).isLoading = false ∧
    (settledTopic "id1" "news" "desc" none (.ok ["feed1"])
        (.ok "img")).rssUrls = ["feed1"] := by
  have h := c8_addTopicSettles "id1" "news" "desc" none (.ok ["feed1"])
    (.ok "img") initialState (fun t ht => absurd ht (List.not_mem_nil t))
  exact ⟨h.2.1, h.2.2.1, (h.2.2.2.2.1 ["feed1"] "img" rfl rfl).1⟩

end Nexus
